import Mathlib

/-!
Verification development for `coqui_server.py` (Voice-Clone-Alpha-AI).

The file shallowly embeds the audio-processing logic of the single source
file `src/coqui_server.py`:

* the waveform normalize-and-serialize step shared by both POST handlers
  (lines 176-188 and 313-324),
* the speaker-audio coercion pipeline of `/api/tts/speaker-similarity`
  (lines 231-305),
* the default-speaker synthesizer (lines 134-152),
* the request flow of the two POST handlers, `text_to_speech`
  (lines 61-208) and `speaker_similarity_tts` (lines 210-341), with
  explicit accounting of the temporary files each request creates and
  deletes,
* the supported-language list of `get_server_info` (line 349).

Machine floats are modelled as exact rationals extended with the three
non-finite IEEE values (`nan`, `inf`, `-inf`), with numpy's reduction and
comparison semantics made explicit where the source relies on them.
-/

namespace VoiceClone

/-- A numpy float64 value: an exact finite value, or one of the IEEE
non-finite values.  Only the operations the source applies are defined. -/
inductive FSample where
  | fin (q : ℚ)
  | nan
  | inf
  | ninf
deriving DecidableEq, Repr

/-- The python comparison `x > 1.0`.  Any comparison with NaN is false. -/
def FSample.gt1 : FSample → Bool
  | .fin q => decide (1 < q)
  | .nan => false
  | .inf => true
  | .ninf => false

/-- The python comparison `x < -1.0`.  Any comparison with NaN is false. -/
def FSample.ltm1 : FSample → Bool
  | .fin q => decide (q < -1)
  | .nan => false
  | .inf => false
  | .ninf => true

/-- Elementwise `np.abs` on one value. -/
def FSample.abs : FSample → FSample
  | .fin q => .fin |q|
  | .nan => .nan
  | .inf => .inf
  | .ninf => .inf

/-- The binary maximum used by `np.max`'s reduction: NaN propagates,
otherwise the usual order with `-inf < finite < inf`. -/
def FSample.max2 : FSample → FSample → FSample
  | .nan, _ => .nan
  | _, .nan => .nan
  | .inf, _ => .inf
  | _, .inf => .inf
  | .ninf, y => y
  | x, .ninf => x
  | .fin a, .fin b => .fin (max a b)

/-- The binary minimum used by `np.min`'s reduction: NaN propagates,
otherwise the usual order with `-inf < finite < inf`. -/
def FSample.min2 : FSample → FSample → FSample
  | .nan, _ => .nan
  | _, .nan => .nan
  | .ninf, _ => .ninf
  | _, .ninf => .ninf
  | .inf, y => y
  | x, .inf => x
  | .fin a, .fin b => .fin (min a b)

/-- IEEE division `x / y` for the cases the encoder can reach. -/
def FSample.div : FSample → FSample → FSample
  | .nan, _ => .nan
  | _, .nan => .nan
  | .fin a, .fin b =>
      if b = 0 then (if a = 0 then .nan else if 0 < a then .inf else .ninf)
      else .fin (a / b)
  | .fin _, .inf => .fin 0
  | .fin _, .ninf => .fin 0
  | .inf, .fin b => if b < 0 then .ninf else .inf
  | .ninf, .fin b => if b < 0 then .inf else .ninf
  | .inf, _ => .nan
  | .ninf, _ => .nan

/-- A numpy reduction (`arr.max()`, `arr.min()`): raises `ValueError` on an
empty array, otherwise left-folds the binary operation over the elements. -/
def npReduce (f : FSample → FSample → FSample) : List FSample → Except String FSample
  | [] => .error "zero-size array to reduction operation"
  | x :: xs => .ok (xs.foldl f x)

/-- Lines 176-188 (and identically 313-324) of `coqui_server.py`: the
normalize-and-serialize step applied to the model's output waveform.

```
if wav.max() > 1.0 or wav.min() < -1.0:
    wav = wav / np.max(np.abs(wav))
sf.write(audio_buffer, wav, 22050, format='WAV', subtype='PCM_16')
```

`or` short-circuits, so `wav.min()` is only evaluated when
`wav.max() > 1.0` is false; on an empty array `wav.max()` raises first.
The returned list is the sample sequence handed to `sf.write`; the 16-bit
PCM quantization inside `sf.write` is not modelled because no claim
depends on it, and `sf.write` itself raises on none of the values a
numpy float array can hold. -/
def encodeWav (wav : List FSample) : Except String (List FSample) :=
  match npReduce FSample.max2 wav with
  | .error e => .error e
  | .ok mx =>
    if mx.gt1 then
      match npReduce FSample.max2 (wav.map FSample.abs) with
      | .error e => .error e
      | .ok m => .ok (wav.map (fun s => s.div m))
    else
      match npReduce FSample.min2 wav with
      | .error e => .error e
      | .ok mn =>
        if mn.ltm1 then
          match npReduce FSample.max2 (wav.map FSample.abs) with
          | .error e => .error e
          | .ok m => .ok (wav.map (fun s => s.div m))
        else .ok wav

/-- The array `sf.read` returns: 1-D for a mono file, 2-D (one row per
frame, one column per channel) for a multichannel file.  Samples are
rationals standing for float values. -/
inductive NpArray where
  | mono (samples : List ℚ)
  | multi (frames : List (List ℚ))
deriving DecidableEq, Repr

/-- Python `len(data)` on the decoded array: number of samples for 1-D data,
number of frames for 2-D data. -/
def NpArray.len : NpArray → ℕ
  | .mono s => s.length
  | .multi f => f.length

/-- Models the external `scipy.signal.resample(data, n)` call on a 1-D
signal.  The claims rely only on the output length, which scipy
guarantees equals the request; the sample content stands in for the
library's Fourier-method interpolation with a simple index-map
interpolation so that the definition stays executable. -/
def scipyResample (d : List ℚ) (n : ℕ) : List ℚ :=
  (List.range n).map (fun i => d.getD (i * d.length / n) 0)

/-- The call `scipy.signal.resample` resamples a 2-D array along axis 0 (the frame
axis), keeping the channel axis. -/
def NpArray.resample : NpArray → ℕ → NpArray
  | .mono s, n => .mono (scipyResample s n)
  | .multi f, n => .multi ((List.range n).map (fun i => f.getD (i * f.length / n) []))

/-- The value `np.mean(frame)`: the arithmetic mean of one frame's channel values. -/
def frameMean (fr : List ℚ) : ℚ := fr.sum / (fr.length : ℚ)

/-- The failures the audio-processing block of `speaker_similarity_tts`
can raise before the model call. -/
inductive CoerceErr where
  | unsupportedFormat
  | conversionFailed
deriving DecidableEq, Repr

/-- The externally determined outcomes the coercion pipeline branches on:
whether `sf.read` succeeds on the uploaded file (and with what data),
whether `pydub` imports, and whether the pydub conversion plus re-read
succeeds (yielding, by construction of the conversion, mono data at
22050 Hz since the code applies `set_frame_rate(22050).set_channels(1)`
before exporting). -/
structure CoerceEnv where
  directDecode : Option (NpArray × ℕ)
  pydubAvailable : Bool
  pydubResult : Option (List ℚ)
deriving Repr

/-- Lines 235-298 of `coqui_server.py`: the speaker-audio coercion
pipeline of `speaker_similarity_tts`.

1. try `sf.read` directly;
2. on failure, fall back to pydub: `ImportError` raises "Audio file
   format not supported. Please upload a WAV file."
   (`CoerceErr.unsupportedFormat`); a pydub error, or a failing re-read
   of the converted file, raises "Failed to convert audio file: ..."
   (`CoerceErr.conversionFailed`);
3. if the decoded sample rate is not 22050, resample to
   `int(len(data) * 22050 / samplerate)` samples (python computes the
   ratio in binary floating point; the rational floor used here agrees
   at every sample rate a claim mentions, in particular at 44100 where
   the ratio 0.5 is exact);
4. if the data is 2-D, downmix to mono by the per-frame channel mean. -/
def coerceAudio (env : CoerceEnv) : Except CoerceErr NpArray :=
  let decoded : Except CoerceErr (NpArray × ℕ) :=
    match env.directDecode with
    | some ds => .ok ds
    | none =>
      if env.pydubAvailable then
        match env.pydubResult with
        | some d => .ok (.mono d, 22050)
        | none => .error .conversionFailed
      else .error .unsupportedFormat
  match decoded with
  | .error e => .error e
  | .ok (data0, sr) =>
    let data1 :=
      if sr ≠ 22050 then
        data0.resample (Int.toNat ⌊((data0.len : ℚ) * 22050) / (sr : ℚ)⌋)
      else data0
    match data1 with
    | .multi frames => .ok (.mono (frames.map frameMean))
    | m => .ok m

/-- Where the `speaker_wav` path handed to `tts.tts` came from.  The
source passes a filesystem path; the constructors record its provenance
at each of the call sites. -/
inductive SpeakerSource where
  | jsonPath (p : String)
  | rawUpload
  | coercedUpload
  | existingWav (name : String)
  | synthesizedDefault
deriving DecidableEq, Repr

/-- The arguments of one `tts.tts(text=..., speaker_wav=..., language=...)`
invocation. -/
structure ModelCall where
  text : String
  speaker : SpeakerSource
  language : String
deriving DecidableEq, Repr

/-- The JSON error messages the handlers can return (each constructor's
doc names the python message it stands for). -/
inductive ErrMsg where
  /-- The message "Text is required" -/
  | textRequired
  /-- The message "Speaker audio file is required" -/
  | speakerFileRequired
  /-- The message "Voice cloning failed: ..." re-raised at line 107 -/
  | voiceCloningFailed
  /-- The message "TTS generation failed: ... For best results, please upload a voice
  sample for cloning." re-raised at line 173 -/
  | ttsGenerationFailed
  /-- The message "Invalid audio file format: ..." re-raised at line 305, wrapping the
  inner coercion failure -/
  | invalidAudioFormat (inner : CoerceErr)
  /-- the bare `tts.tts` exception of line 310 reaching the outer handler -/
  | modelError
  /-- a numpy error raised while encoding the output waveform -/
  | encodingError (msg : String)
deriving DecidableEq, Repr

/-- What a handler returns: a WAV file (its sample content) via
`send_file`, or a JSON error object with an HTTP status. -/
inductive Response where
  | wavFile (samples : List FSample)
  | jsonErr (status : ℕ) (msg : ErrMsg)
deriving DecidableEq, Repr

/-- The request body of POST `/api/tts`: a JSON object
`{text, speaker_wav?, language?}` or a multipart form with `text`,
`language` and an optional uploaded file (recorded by its filename). -/
inductive TtsBody where
  | json (text : String) (speaker_wav : Option String) (language : Option String)
  | form (text : String) (language : Option String) (file : Option String)
deriving DecidableEq, Repr

/-- The request's `text` field. -/
def TtsBody.text : TtsBody → String
  | .json t _ _ => t
  | .form t _ _ => t

/-- The request's `language` field, when present. -/
def TtsBody.lang : TtsBody → Option String
  | .json _ _ l => l
  | .form _ l _ => l

/-- The same body with the `language` field replaced. -/
def TtsBody.withLang : TtsBody → Option String → TtsBody
  | .json t s _, l => .json t s l
  | .form t _ f, l => .form t l f

/-- Everything outside the handler that `text_to_speech` branches on: the
request body, the contents of the `temp_voices` directory, and the
outcome of the (opaque) model call as a function of its arguments
(`none` means `tts.tts` raised). -/
structure TtsEnv where
  body : TtsBody
  tempVoicesExists : Bool
  tempVoicesFiles : List String
  modelResult : ModelCall → Option (List FSample)

/-- The observable outcome of one `text_to_speech` POST request:
the HTTP response, the model invocation (if reached), and the
temporary-file accounting — `tempCreated`/`tempDeleted` track the file
the handler creates for a form upload (lines 90-92, unlinked only at
line 195), `defaultTempCreated`/`defaultTempDeleted` track the
synthesized default-speaker file (lines 155-157, unlinked at lines 166
and 171; `NamedTemporaryFile` places it under `/tmp`, so the
`startswith('/tmp')` guard passes for it). -/
structure TtsOutcome where
  response : Response
  modelCall : Option ModelCall
  tempCreated : Bool
  tempDeleted : Bool
  defaultTempCreated : Bool
  defaultTempDeleted : Bool
deriving DecidableEq, Repr

/-- Lines 61-208 of `coqui_server.py`: the POST branch of
`text_to_speech`, with the outer `except` (lines 206-208) folded into
the error responses. -/
def ttsPost (env : TtsEnv) : TtsOutcome :=
  let text := env.body.text
  let language := env.body.lang.getD "en"
  -- lines 86-92: a form upload with a truthy filename is saved to a
  -- fresh temporary file
  let uploadTemp : Bool :=
    match env.body with
    | .form _ _ (some name) => name ≠ ""
    | _ => false
  let speaker : Option SpeakerSource :=
    if uploadTemp then some .rawUpload
    else
      match env.body with
      | .json _ (some p) _ => if p = "" then none else some (.jsonPath p)
      | _ => none
  -- line 94: the text check runs after the upload was already saved
  if text = "" then
    { response := .jsonErr 400 .textRequired, modelCall := none,
      tempCreated := uploadTemp, tempDeleted := false,
      defaultTempCreated := false, defaultTempDeleted := false }
  else
    match speaker with
    | some src =>
      -- lines 100-107: the reference (uploaded temp file or JSON path) is
      -- handed to the model as-is; an exception is re-raised and reaches
      -- the outer handler with no unlink on the way
      let call : ModelCall := ⟨text, src, language⟩
      match env.modelResult call with
      | none =>
        { response := .jsonErr 500 .voiceCloningFailed, modelCall := some call,
          tempCreated := uploadTemp, tempDeleted := false,
          defaultTempCreated := false, defaultTempDeleted := false }
      | some wav =>
        match encodeWav wav with
        | .error e =>
          { response := .jsonErr 500 (.encodingError e), modelCall := some call,
            tempCreated := uploadTemp, tempDeleted := false,
            defaultTempCreated := false, defaultTempDeleted := false }
        | .ok bytes =>
          -- lines 194-195: unlink only on this success path
          { response := .wavFile bytes, modelCall := some call,
            tempCreated := uploadTemp, tempDeleted := uploadTemp,
            defaultTempCreated := false, defaultTempDeleted := false }
    | none =>
      -- lines 110-173: default-speaker branch
      let wavsInDir := env.tempVoicesFiles.filter (fun f => f.endsWith ".wav")
      let onDisk : Option String :=
        if env.tempVoicesExists then wavsInDir.head? else none
      let defTemp : Bool := onDisk.isNone
      let src : SpeakerSource :=
        match onDisk with
        | some name => .existingWav name
        | none => .synthesizedDefault
      let call : ModelCall := ⟨text, src, language⟩
      match env.modelResult call with
      | none =>
        -- lines 168-173: the synthesized temp file is unlinked before the
        -- exception is re-raised
        { response := .jsonErr 500 .ttsGenerationFailed, modelCall := some call,
          tempCreated := false, tempDeleted := false,
          defaultTempCreated := defTemp, defaultTempDeleted := defTemp }
      | some wav =>
        -- lines 165-166: the synthesized temp file is unlinked right after
        -- the model call, before encoding
        match encodeWav wav with
        | .error e =>
          { response := .jsonErr 500 (.encodingError e), modelCall := some call,
            tempCreated := false, tempDeleted := false,
            defaultTempCreated := defTemp, defaultTempDeleted := defTemp }
        | .ok bytes =>
          { response := .wavFile bytes, modelCall := some call,
            tempCreated := false, tempDeleted := false,
            defaultTempCreated := defTemp, defaultTempDeleted := defTemp }

/-- Everything outside the handler that `speaker_similarity_tts` branches
on. -/
structure SimEnv where
  text : String
  language : Option String
  hasSpeakerFile : Bool
  coerce : CoerceEnv
  modelResult : ModelCall → Option (List FSample)

/-- The observable outcome of one `speaker_similarity_tts` request.
`tempCreated`/`tempDeleted` track the temporary file of lines 226-228
(the pydub fallback renames its converted file onto the same path, so
one path stands for the request's temporary storage throughout). -/
structure SimOutcome where
  response : Response
  modelCall : Option ModelCall
  tempCreated : Bool
  tempDeleted : Bool
deriving DecidableEq, Repr

/-- Lines 210-341 of `coqui_server.py`: the `speaker_similarity_tts`
handler, with the outer `except` (lines 339-341) folded into the error
responses. -/
def simPost (env : SimEnv) : SimOutcome :=
  if env.text = "" then
    { response := .jsonErr 400 .textRequired, modelCall := none,
      tempCreated := false, tempDeleted := false }
  else if env.hasSpeakerFile then
    -- lines 226-228: the upload is saved to a temporary file
    match coerceAudio env.coerce with
    | .error ce =>
      -- lines 300-305: the audio-processing failure unlinks the temp file
      -- and re-raises
      { response := .jsonErr 500 (.invalidAudioFormat ce), modelCall := none,
        tempCreated := true, tempDeleted := true }
    | .ok _ =>
      let call : ModelCall := ⟨env.text, .coercedUpload, env.language.getD "en"⟩
      match env.modelResult call with
      | none =>
        -- line 310 raising reaches the outer handler; the unlink of line
        -- 328 is skipped
        { response := .jsonErr 500 .modelError, modelCall := some call,
          tempCreated := true, tempDeleted := false }
      | some wav =>
        match encodeWav wav with
        | .error e =>
          { response := .jsonErr 500 (.encodingError e), modelCall := some call,
            tempCreated := true, tempDeleted := false }
        | .ok bytes =>
          -- line 328: unlink on the success path
          { response := .wavFile bytes, modelCall := some call,
            tempCreated := true, tempDeleted := true }
  else
    { response := .jsonErr 400 .speakerFileRequired, modelCall := none,
      tempCreated := false, tempDeleted := false }

/-- Line 349 of `coqui_server.py`: the language list `/api/tts/info`
reports. -/
def supportedLanguages : List String :=
  ["en", "es", "fr", "de", "it", "pt", "pl", "tr", "ru", "nl", "cs",
   "ar", "zh-cn", "ja", "hu", "ko"]

/-! ### Default speaker synthesizer (lines 134-152)

The synthesizer evaluates `np.sin` and `np.exp`, so it is embedded over
the real numbers; its defining expressions follow the source line by
line. -/

/-- Line 134: `sample_rate = 22050`. -/
def dssSampleRate : ℕ := 22050

/-- Line 136: `int(sample_rate * duration)` with `duration = 2.0`,
i.e. 44100 samples. -/
def dssNumSamples : ℕ := 44100

/-- Line 136: `np.linspace(0, duration, int(sample_rate*duration), False)`
— with the endpoint excluded the `i`-th point is `i * 2.0 / 44100`. -/
noncomputable def dssT (i : ℕ) : ℝ := (i : ℝ) * 2 / (dssNumSamples : ℝ)

/-- Lines 139-145: the weighted sum of four harmonics of the 150 Hz
fundamental. -/
noncomputable def dssHarm (i : ℕ) : ℝ :=
  0.5 * Real.sin (2 * Real.pi * 150 * dssT i)
  + 0.3 * Real.sin (2 * Real.pi * 150 * 2 * dssT i)
  + 0.2 * Real.sin (2 * Real.pi * 150 * 3 * dssT i)
  + 0.1 * Real.sin (2 * Real.pi * 150 * 4 * dssT i)

/-- Lines 148-149: the decay envelope `np.exp(-t * 0.5)` applied by
`voice_signal *= envelope`. -/
noncomputable def dssRaw (i : ℕ) : ℝ := dssHarm i * Real.exp (-dssT i * 0.5)

theorem dssRange_nonempty : (Finset.range dssNumSamples).Nonempty :=
  ⟨0, by simp [dssNumSamples]⟩

/-- Line 152: `np.max(np.abs(voice_signal))`. -/
noncomputable def dssPeak : ℝ :=
  (Finset.range dssNumSamples).sup' dssRange_nonempty (fun i => |dssRaw i|)

/-- Line 152: `voice_signal / np.max(np.abs(voice_signal)) * 0.7`. -/
noncomputable def dssSample (i : ℕ) : ℝ := dssRaw i / dssPeak * 0.7

/-! ### Helper lemmas about folds -/

theorem foldl_max2_fin (xs : List ℚ) (a : ℚ) :
    (xs.map FSample.fin).foldl FSample.max2 (.fin a) = .fin (xs.foldl max a) := by
  induction xs generalizing a with
  | nil => rfl
  | cons x xs ih => simpa [FSample.max2] using ih (max a x)

theorem foldl_min2_fin (xs : List ℚ) (a : ℚ) :
    (xs.map FSample.fin).foldl FSample.min2 (.fin a) = .fin (xs.foldl min a) := by
  induction xs generalizing a with
  | nil => rfl
  | cons x xs ih => simpa [FSample.min2] using ih (min a x)

theorem map_abs_fin (w : List ℚ) :
    (w.map FSample.fin).map FSample.abs = (w.map (fun x => |x|)).map FSample.fin := by
  simp only [List.map_map]
  exact List.map_congr_left (fun a _ => rfl)

theorem foldl_max_le {l : List ℚ} {a c : ℚ} (ha : a ≤ c) (h : ∀ x ∈ l, x ≤ c) :
    l.foldl max a ≤ c := by
  induction l generalizing a with
  | nil => exact ha
  | cons x xs ih =>
    exact ih (max_le ha (h x (by simp))) (fun y hy => h y (by simp [hy]))

theorem le_foldl_min {l : List ℚ} {a c : ℚ} (ha : c ≤ a) (h : ∀ x ∈ l, c ≤ x) :
    c ≤ l.foldl min a := by
  induction l generalizing a with
  | nil => exact ha
  | cons x xs ih =>
    exact ih (le_min ha (h x (by simp))) (fun y hy => h y (by simp [hy]))

theorem le_foldl_max_init (l : List ℚ) (a : ℚ) : a ≤ l.foldl max a := by
  induction l generalizing a with
  | nil => exact le_rfl
  | cons x xs ih => exact le_trans (le_max_left a x) (ih (max a x))

theorem le_foldl_max_mem {l : List ℚ} {x : ℚ} (hx : x ∈ l) (a : ℚ) :
    x ≤ l.foldl max a := by
  induction l generalizing a with
  | nil => cases hx
  | cons y ys ih =>
    rcases List.mem_cons.mp hx with h | h
    · subst h
      exact le_trans (le_max_right a x) (le_foldl_max_init ys (max a x))
    · exact ih h (max a y)

theorem foldl_min_le_init (l : List ℚ) (a : ℚ) : l.foldl min a ≤ a := by
  induction l generalizing a with
  | nil => exact le_rfl
  | cons x xs ih => exact le_trans (ih (min a x)) (min_le_left a x)

theorem foldl_min_le_mem {l : List ℚ} {x : ℚ} (hx : x ∈ l) (a : ℚ) :
    l.foldl min a ≤ x := by
  induction l generalizing a with
  | nil => cases hx
  | cons y ys ih =>
    rcases List.mem_cons.mp hx with h | h
    · subst h
      exact le_trans (foldl_min_le_init ys (min a x)) (min_le_right a x)
    · exact ih h (min a y)

/-- The peak magnitude of a sample list (`np.max(np.abs(w))`, taken with
base 0 so that it is total; it agrees with the numpy reduction on
non-empty lists since magnitudes are non-negative). -/
def listPeak (w : List ℚ) : ℚ := w.foldl (fun a x => max a |x|) 0

theorem foldl_peak_eq_map (w : List ℚ) (b : ℚ) :
    w.foldl (fun a x => max a |x|) b = (w.map (fun x => |x|)).foldl max b := by
  simp [List.foldl_map]

theorem listPeak_cons (x : ℚ) (xs : List ℚ) :
    listPeak (x :: xs) = xs.foldl (fun a y => max a |y|) |x| := by
  simp [listPeak, max_eq_right (abs_nonneg x)]

theorem le_listPeak {w : List ℚ} {x : ℚ} (hx : x ∈ w) : |x| ≤ listPeak w := by
  have := le_foldl_max_mem (List.mem_map_of_mem (fun y => |y|) hx) (0 : ℚ)
  simpa [listPeak, foldl_peak_eq_map] using this

theorem foldl_peak_div (xs : List ℚ) (c : ℚ) (hc : 0 < c) (b : ℚ) :
    (xs.map (fun x => x / c)).foldl (fun a x => max a |x|) (b / c)
      = (xs.foldl (fun a x => max a |x|) b) / c := by
  induction xs generalizing b with
  | nil => rfl
  | cons x xs ih =>
    have habs : |x / c| = |x| / c := by
      rw [abs_div, abs_of_pos hc]
    have hmax2 : max (b / c) |x / c| = max b |x| / c := by
      rw [habs, max_div_div_right hc.le]
    simpa [hmax2] using ih (max b |x|)

/-- Unfolding of the encoder on a non-empty waveform. -/
theorem encodeWav_cons (x : FSample) (xs : List FSample) :
    encodeWav (x :: xs) =
      if (xs.foldl FSample.max2 x).gt1 then
        .ok ((x :: xs).map (fun s => s.div ((xs.map FSample.abs).foldl FSample.max2 x.abs)))
      else if (xs.foldl FSample.min2 x).ltm1 then
        .ok ((x :: xs).map (fun s => s.div ((xs.map FSample.abs).foldl FSample.max2 x.abs)))
      else .ok (x :: xs) := rfl

/-- The resample target length the code computes for a 44100 Hz input:
`int(N * 22050 / 44100)` is `N / 2` rounded down. -/
theorem floor_half (n : ℕ) : Int.toNat ⌊((n : ℚ) * 22050) / (44100 : ℚ)⌋ = n / 2 := by
  have h : ((n : ℚ) * 22050) / 44100 = (n : ℚ) / ((2 : ℕ) : ℚ) := by push_cast; ring
  rw [h, Int.floor_toNat, Nat.floor_div_nat, Nat.floor_natCast]

/-! ### Claims -/

/-- A `speaker_similarity_tts` request whose speaker file decodes fine but
whose model call raises. -/
def simEnvModelRaises : SimEnv :=
  { text := "hi", language := some "en", hasSpeakerFile := true,
    coerce := ⟨some (.mono [0], 22050), false, none⟩,
    modelResult := fun _ => none }

/-- C1: the claim that every request's temporary speaker-reference file is
deleted on every exit path fails on the code.  Concrete run: a
`/api/tts/speaker-similarity` request with text "hi" and a decodable
speaker file whose `tts.tts` call raises creates the temporary file,
answers 500, and never deletes the file (the `os.unlink` of line 328 is
on the success path only, and the outer `except` of lines 339-341 does
not unlink). -/
theorem C1_sim_model_failure_leaks_tempfile :
    (simPost simEnvModelRaises).tempCreated = true ∧
    (simPost simEnvModelRaises).tempDeleted = false ∧
    (simPost simEnvModelRaises).response = .jsonErr 500 .modelError :=
  ⟨rfl, rfl, rfl⟩

/-- C4: in `speaker_similarity_tts`, when direct decode fails and pydub is
unavailable the request fails with the unsupported-format error and the
temporary file is deleted; when pydub is present but its conversion (or
the re-read) fails, the request fails with the conversion-failed error
(the temporary file again being deleted by lines 302-304). -/
theorem C4_conversion_fallback_errors (env : SimEnv)
    (ht : env.text ≠ "") (hf : env.hasSpeakerFile = true)
    (hd : env.coerce.directDecode = none) :
    (env.coerce.pydubAvailable = false →
       (simPost env).response = .jsonErr 500 (.invalidAudioFormat .unsupportedFormat) ∧
       (simPost env).tempCreated = true ∧ (simPost env).tempDeleted = true) ∧
    (env.coerce.pydubAvailable = true → env.coerce.pydubResult = none →
       (simPost env).response = .jsonErr 500 (.invalidAudioFormat .conversionFailed) ∧
       (simPost env).tempCreated = true ∧ (simPost env).tempDeleted = true) := by
  constructor
  · intro hp
    simp [simPost, ht, hf, coerceAudio, hd, hp]
  · intro hp hr
    simp [simPost, ht, hf, coerceAudio, hd, hp, hr]

theorem C4_witness :
    (simPost { text := "hi", language := none, hasSpeakerFile := true,
               coerce := ⟨none, false, none⟩, modelResult := fun _ => none }).response
      = .jsonErr 500 (.invalidAudioFormat .unsupportedFormat) :=
  ((C4_conversion_fallback_errors _ (by decide) rfl rfl).1 rfl).1

/-- C6: an input that decodes directly as mono 22050 Hz audio is returned
by the coercion pipeline unchanged — neither the resampling branch
(line 279) nor the downmix branch (line 295) fires. -/
theorem C6_direct_mono_22050_unchanged (env : CoerceEnv) (d : List ℚ)
    (h : env.directDecode = some (.mono d, 22050)) :
    coerceAudio env = .ok (.mono d) := by
  simp [coerceAudio, h]

theorem C6_witness :
    coerceAudio ⟨some (.mono [1, 2, 3], 22050), false, none⟩ = .ok (.mono [1, 2, 3]) :=
  C6_direct_mono_22050_unchanged _ [1, 2, 3] rfl

/-- C7: a mono buffer of N samples decoded at 44100 Hz is resampled to
`int(N * 22050 / 44100) = N / 2` (rounded down) samples at 22050 Hz. -/
theorem C7_resample_half (env : CoerceEnv) (d : List ℚ)
    (h : env.directDecode = some (.mono d, 44100)) :
    ∃ out : List ℚ, coerceAudio env = .ok (.mono out) ∧ out.length = d.length / 2 := by
  refine ⟨scipyResample d (d.length / 2), ?_, ?_⟩
  · simp [coerceAudio, h, NpArray.resample, NpArray.len, floor_half]
  · simp [scipyResample]

theorem C7_witness :
    ∃ out : List ℚ,
      coerceAudio ⟨some (.mono [1, 2, 3, 4], 44100), false, none⟩ = .ok (.mono out) ∧
      out.length = 2 :=
  C7_resample_half _ [1, 2, 3, 4] rfl

/-- C8: a decoded buffer with more than one channel is downmixed to one
channel whose sample at each position is the arithmetic mean of that
frame's channel values (stated at 22050 Hz, where the downmix is the
only transformation applied). -/
theorem C8_downmix_mean (env : CoerceEnv) (frames : List (List ℚ))
    (h : env.directDecode = some (.multi frames, 22050))
    (_hch : ∀ fr ∈ frames, 2 ≤ fr.length) :
    coerceAudio env = .ok (.mono (frames.map (fun fr => fr.sum / (fr.length : ℚ)))) := by
  simp [coerceAudio, h, frameMean]

theorem C8_witness :
    coerceAudio ⟨some (.multi [[1, 3], [2, 4]], 22050), false, none⟩
      = .ok (.mono [2, 3]) := by
  rw [C8_downmix_mean ⟨some (.multi [[1, 3], [2, 4]], 22050), false, none⟩
    [[1, 3], [2, 4]] rfl (by decide)]
  norm_num

/-- Every model invocation `text_to_speech` performs carries the request's
text and its language field defaulted to "en". -/
theorem ttsPost_modelCall_shape (env : TtsEnv) :
    (ttsPost env).modelCall = none ∨
    ∃ src, (ttsPost env).modelCall = some ⟨env.body.text, src, env.body.lang.getD "en"⟩ := by
  unfold ttsPost
  dsimp only
  repeat' split
  all_goals first | exact Or.inl rfl | exact Or.inr ⟨_, rfl⟩

/-- Every model invocation `speaker_similarity_tts` performs carries the
request's text, the coerced upload, and the language defaulted to
"en". -/
theorem simPost_modelCall_shape (env : SimEnv) :
    (simPost env).modelCall = none ∨
    (simPost env).modelCall = some ⟨env.text, .coercedUpload, env.language.getD "en"⟩ := by
  unfold simPost
  dsimp only
  repeat' split
  all_goals first | exact Or.inl rfl | exact Or.inr rfl

/-- Handler `text_to_speech` reaches the model call exactly when the text is
non-empty. -/
theorem ttsPost_modelCall_isSome (env : TtsEnv) :
    (ttsPost env).modelCall.isSome = decide (env.body.text ≠ "") := by
  unfold ttsPost
  dsimp only
  repeat' split
  all_goals simp_all

/-- Handler `speaker_similarity_tts` reaches the model call exactly when the text
is non-empty, a speaker file was uploaded, and coercion succeeded. -/
theorem simPost_modelCall_isSome_iff (env : SimEnv) :
    (simPost env).modelCall.isSome = true ↔
      (env.text ≠ "" ∧ env.hasSpeakerFile = true ∧
        ∃ a, coerceAudio env.coerce = .ok a) := by
  unfold simPost
  dsimp only
  repeat' split
  all_goals simp_all

/-- The text field is unaffected by replacing the language field. -/
theorem TtsBody.text_withLang (b : TtsBody) (l : Option String) :
    (b.withLang l).text = b.text := by
  cases b <;> rfl

/-- A POST /api/tts multipart request with text "hi" and an uploaded
speaker file "voice.webm", whose model call and encoding succeed. -/
def ttsEnvUpload : TtsEnv :=
  { body := .form "hi" none (some "voice.webm"), tempVoicesExists := false,
    tempVoicesFiles := [], modelResult := fun _ => some [.fin 0] }

/-- C2 counterexample: on the concrete POST /api/tts request
`ttsEnvUpload` the model is invoked with the raw uploaded temporary file;
the speaker reference handed to the model is not the output of the
coercion pipeline (lines 100-107 of `text_to_speech` pass the saved
upload path straight to `tts.tts`; `coerceAudio` is never called by this
handler). -/
theorem C2_counterexample_upload_not_coerced :
    (ttsPost ttsEnvUpload).modelCall = some ⟨"hi", .rawUpload, "en"⟩ ∧
    SpeakerSource.rawUpload ≠ SpeakerSource.coercedUpload :=
  ⟨rfl, by decide⟩

/-- C2 amended: a POST /api/tts request with an uploaded speaker reference
passes the raw saved upload to the model with no coercion step; the
AudioFormatCoercer runs only in POST /api/tts/speaker-similarity, whose
model call always receives the coerced upload. -/
theorem C2_amended_coercion_only_in_similarity :
    (∀ (env : TtsEnv) (t : String) (l : Option String) (f : String),
       env.body = .form t l (some f) → t ≠ "" → f ≠ "" →
       (ttsPost env).modelCall = some ⟨t, .rawUpload, l.getD "en"⟩) ∧
    (∀ (env : SimEnv) (c : ModelCall),
       (simPost env).modelCall = some c → c.speaker = .coercedUpload) := by
  constructor
  · intro env t l f hb ht hf
    obtain ⟨body, tve, tvf, mr⟩ := env
    simp only at hb
    subst hb
    cases hm : mr ⟨t, .rawUpload, l.getD "en"⟩ with
    | none => simp [ttsPost, TtsBody.text, TtsBody.lang, ht, hf, hm]
    | some wav =>
      cases he : encodeWav wav with
      | error e => simp [ttsPost, TtsBody.text, TtsBody.lang, ht, hf, hm, he]
      | ok b => simp [ttsPost, TtsBody.text, TtsBody.lang, ht, hf, hm, he]
  · intro env c h
    rcases simPost_modelCall_shape env with hs | hs
    · rw [hs] at h; cases h
    · rw [hs] at h
      cases h
      rfl

theorem C2_amended_witness :
    (ttsPost ttsEnvUpload).modelCall = some ⟨"hi", .rawUpload, "en"⟩ :=
  C2_amended_coercion_only_in_similarity.1 ttsEnvUpload "hi" none "voice.webm"
    rfl (by decide) (by decide)

/-- C3 counterexample: the waveform `[NaN]` is non-finite, yet the encoder
does not reject it — `wav.max()` is NaN, both comparisons with NaN are
false, so the normalization is skipped and `sf.write` produces WAV
bytes. -/
theorem C3_counterexample_nan_encoded :
    encodeWav [FSample.nan] = .ok [FSample.nan] := rfl

/-- C3 amended: an empty waveform is rejected — `wav.max()` raises a
`ValueError` on a zero-size array, so no WAV bytes are produced (a
generic 500, not a dedicated InvalidWaveform error) — but a waveform
containing NaN or ±Inf is not rejected: the encoder always produces WAV
bytes for it. -/
theorem C3_amended_empty_rejected_nonfinite_encoded :
    encodeWav [] = .error "zero-size array to reduction operation" ∧
    ∀ w : List FSample,
      (FSample.nan ∈ w ∨ FSample.inf ∈ w ∨ FSample.ninf ∈ w) →
      ∃ out, encodeWav w = .ok out := by
  refine ⟨rfl, ?_⟩
  intro w hw
  have hne : w ≠ [] := by
    rcases hw with h | h | h <;> exact List.ne_nil_of_mem h
  obtain ⟨x, xs, rfl⟩ := List.exists_cons_of_ne_nil hne
  rw [encodeWav_cons]
  split
  · exact ⟨_, rfl⟩
  · split
    · exact ⟨_, rfl⟩
    · exact ⟨_, rfl⟩

theorem C3_amended_witness :
    encodeWav [] = .error "zero-size array to reduction operation" ∧
    ∃ out, encodeWav [FSample.nan] = .ok out :=
  ⟨C3_amended_empty_rejected_nonfinite_encoded.1,
   C3_amended_empty_rejected_nonfinite_encoded.2 [FSample.nan] (Or.inl (by simp))⟩

/-- C10: both handlers forward the request's language field to the model
verbatim, defaulting to "en" when absent, and whether the model call is
reached never depends on the language — in particular a language outside
the `/api/tts/info` list is never rejected before the model call. -/
theorem C10_language_forwarded_unvalidated (lang : String)
    (_hl : lang ∉ supportedLanguages) :
    (∀ (env : TtsEnv) (c : ModelCall),
       (ttsPost env).modelCall = some c → c.language = env.body.lang.getD "en") ∧
    (∀ (env : SimEnv) (c : ModelCall),
       (simPost env).modelCall = some c → c.language = env.language.getD "en") ∧
    (∀ env : TtsEnv,
       ((ttsPost { env with body := env.body.withLang (some lang) }).modelCall).isSome
         = ((ttsPost env).modelCall).isSome) ∧
    (∀ env : SimEnv,
       ((simPost { env with language := some lang }).modelCall).isSome
         = ((simPost env).modelCall).isSome) := by
  refine ⟨?_, ?_, ?_, ?_⟩
  · intro env c h
    rcases ttsPost_modelCall_shape env with hs | ⟨src, hs⟩
    · rw [hs] at h; cases h
    · rw [hs] at h
      cases h
      rfl
  · intro env c h
    rcases simPost_modelCall_shape env with hs | hs
    · rw [hs] at h; cases h
    · rw [hs] at h
      cases h
      rfl
  · intro env
    rw [ttsPost_modelCall_isSome, ttsPost_modelCall_isSome]
    simp [TtsBody.text_withLang]
  · intro env
    have h1 := simPost_modelCall_isSome_iff { env with language := some lang }
    have h2 := simPost_modelCall_isSome_iff env
    simp only at h1
    rw [Bool.eq_iff_iff, h1, h2]

theorem C10_witness :
    "xx" ∉ supportedLanguages ∧
    (ModelCall.mk "hi" (.jsonPath "p") "xx").language
      = ((TtsBody.json "hi" (some "p") (some "xx")).lang).getD "en" := by
  refine ⟨by decide, ?_⟩
  exact (C10_language_forwarded_unvalidated "xx" (by decide)).1
    { body := .json "hi" (some "p") (some "xx"), tempVoicesExists := false,
      tempVoicesFiles := [], modelResult := fun _ => some [.fin 0] }
    ⟨"hi", .jsonPath "p", "xx"⟩ rfl

/-- Dividing a finite sample list elementwise by a non-zero finite peak
stays in the finite fragment of the float model. -/
theorem map_div_fin (w : List ℚ) (P : ℚ) (hP : P ≠ 0) :
    (w.map FSample.fin).map (fun s => s.div (.fin P))
      = (w.map (fun y => y / P)).map FSample.fin := by
  simp only [List.map_map]
  refine List.map_congr_left (fun y _ => ?_)
  simp [FSample.div, hP]

/-- C5: a waveform already inside [-1, 1] is encoded with its sample
values unchanged, and a waveform with some magnitude above 1 is rescaled
elementwise by `1 / max(|samples|)`, after which its peak magnitude is
exactly 1. -/
theorem C5_peak_normalization (w : List ℚ) :
    ((∀ x ∈ w, |x| ≤ 1) → w ≠ [] → encodeWav (w.map .fin) = .ok (w.map .fin)) ∧
    ((∃ x ∈ w, 1 < |x|) →
       encodeWav (w.map .fin) = .ok ((w.map (fun x => x / listPeak w)).map .fin) ∧
       listPeak (w.map (fun x => x / listPeak w)) = 1) := by
  constructor
  · intro h hne
    obtain ⟨a, xs, rfl⟩ := List.exists_cons_of_ne_nil hne
    have hM : ¬(1 < xs.foldl max a) := by
      push_neg
      exact foldl_max_le (le_trans (le_abs_self a) (h a (by simp)))
        (fun x hx => le_trans (le_abs_self x) (h x (by simp [hx])))
    have hm : ¬(xs.foldl min a < -1) := by
      push_neg
      exact le_foldl_min (abs_le.mp (h a (by simp))).1
        (fun x hx => (abs_le.mp (h x (by simp [hx]))).1)
    rw [List.map_cons, encodeWav_cons, foldl_max2_fin, foldl_min2_fin]
    simp [FSample.gt1, FSample.ltm1, hM, hm]
  · intro hx
    obtain ⟨x, hxw, hgt⟩ := hx
    have hne : w ≠ [] := List.ne_nil_of_mem hxw
    obtain ⟨a, xs, rfl⟩ := List.exists_cons_of_ne_nil hne
    set P := listPeak (a :: xs) with hPdef
    have hP1 : 1 < P := lt_of_lt_of_le hgt (le_listPeak hxw)
    have hPpos : 0 < P := by linarith
    have hP0 : P ≠ 0 := ne_of_gt hPpos
    have hdiv : ((xs.map FSample.fin).map FSample.abs).foldl FSample.max2 (FSample.fin a).abs
        = .fin P := by
      rw [map_abs_fin]
      show ((xs.map (fun y => |y|)).map FSample.fin).foldl FSample.max2 (.fin |a|) = .fin P
      rw [foldl_max2_fin, ← foldl_peak_eq_map, ← listPeak_cons]
    have hres : encodeWav ((a :: xs).map .fin)
        = .ok (((a :: xs).map (fun y => y / P)).map .fin) := by
      rw [List.map_cons, encodeWav_cons, hdiv, foldl_max2_fin, foldl_min2_fin,
        ← List.map_cons, map_div_fin _ _ hP0]
      by_cases hc : 1 < xs.foldl max a
      · simp [FSample.gt1, hc]
      · have hm : xs.foldl min a < -1 := by
          rcases lt_abs.mp hgt with h1 | h1
          · exfalso
            rcases List.mem_cons.mp hxw with rfl | hmem
            · exact hc (lt_of_lt_of_le h1 (le_foldl_max_init xs x))
            · exact hc (lt_of_lt_of_le h1 (le_foldl_max_mem hmem a))
          · have hxlt : x < -1 := by linarith
            rcases List.mem_cons.mp hxw with rfl | hmem
            · exact lt_of_le_of_lt (foldl_min_le_init xs x) hxlt
            · exact lt_of_le_of_lt (foldl_min_le_mem hmem a) hxlt
        simp [FSample.gt1, FSample.ltm1, hc, hm]
    refine ⟨hres, ?_⟩
    have h0 : (0 : ℚ) = 0 / P := (zero_div P).symm
    rw [listPeak, h0, foldl_peak_div _ _ hPpos]
    have hfold : List.foldl (fun acc y => max acc |y|) 0 (a :: xs) = P := hPdef.symm
    rw [hfold, div_self hP0]

theorem C5_witness :
    encodeWav ([(1 : ℚ)/2, -1].map .fin) = .ok ([(1 : ℚ)/2, -1].map .fin) ∧
    (encodeWav ([(2 : ℚ)].map .fin)
        = .ok (([(2 : ℚ)].map (fun x => x / listPeak [(2 : ℚ)])).map .fin) ∧
      listPeak ([(2 : ℚ)].map (fun x => x / listPeak [(2 : ℚ)])) = 1) :=
  ⟨(C5_peak_normalization [(1 : ℚ)/2, -1]).1 (by norm_num [List.forall_mem_cons, abs_le]) (by simp),
   (C5_peak_normalization [(2 : ℚ)]).2 ⟨2, by simp, by norm_num⟩⟩

/-- The raw default-speaker signal is strictly positive at sample 1: all
four harmonic arguments lie in (0, π) there, so every sine term is
positive, and the envelope is a positive exponential. -/
theorem dssRaw_one_pos : 0 < dssRaw 1 := by
  have hπ := Real.pi_pos
  have ht : dssT 1 = 2 / 44100 := by
    simp [dssT, dssNumSamples]
  have h1 : 0 < Real.sin (2 * Real.pi * 150 * dssT 1) := by
    apply Real.sin_pos_of_pos_of_lt_pi
    · rw [ht]; positivity
    · rw [ht]; nlinarith
  have h2 : 0 < Real.sin (2 * Real.pi * 150 * 2 * dssT 1) := by
    apply Real.sin_pos_of_pos_of_lt_pi
    · rw [ht]; positivity
    · rw [ht]; nlinarith
  have h3 : 0 < Real.sin (2 * Real.pi * 150 * 3 * dssT 1) := by
    apply Real.sin_pos_of_pos_of_lt_pi
    · rw [ht]; positivity
    · rw [ht]; nlinarith
  have h4 : 0 < Real.sin (2 * Real.pi * 150 * 4 * dssT 1) := by
    apply Real.sin_pos_of_pos_of_lt_pi
    · rw [ht]; positivity
    · rw [ht]; nlinarith
  have hharm : 0 < dssHarm 1 := by
    unfold dssHarm
    nlinarith
  exact mul_pos hharm (Real.exp_pos _)

/-- The peak the synthesizer divides by is strictly positive, so the
normalization of line 152 never divides by zero. -/
theorem dssPeak_pos : 0 < dssPeak := by
  have hmem : (1 : ℕ) ∈ Finset.range dssNumSamples := by
    simp [dssNumSamples]
  have h2 : |dssRaw 1| ≤ dssPeak := Finset.le_sup' (fun i => |dssRaw i|) hmem
  have := le_abs_self (dssRaw 1)
  have := dssRaw_one_pos
  linarith

/-- The peak magnitude of the normalized default-speaker buffer is exactly
0.7. -/
theorem dss_out_peak :
    (Finset.range dssNumSamples).sup' dssRange_nonempty (fun i => |dssSample i|) = 0.7 := by
  have hP := dssPeak_pos
  set g : ℝ → ℝ := fun y => y / dssPeak * 0.7 with hg
  have hgmono : Monotone g := by
    intro y z h
    dsimp [g]
    gcongr
  have hcomp : g ((Finset.range dssNumSamples).sup' dssRange_nonempty (fun i => |dssRaw i|))
      = (Finset.range dssNumSamples).sup' dssRange_nonempty (g ∘ fun i => |dssRaw i|) :=
    Finset.comp_sup'_eq_sup'_comp dssRange_nonempty g (fun x y => hgmono.map_max)
  have hleft : g ((Finset.range dssNumSamples).sup' dssRange_nonempty (fun i => |dssRaw i|))
      = 0.7 := by
    show dssPeak / dssPeak * 0.7 = 0.7
    rw [div_self (ne_of_gt hP)]
    norm_num
  have habs : ∀ i ∈ Finset.range dssNumSamples, (g ∘ fun i => |dssRaw i|) i = |dssSample i| := by
    intro i _
    have h07 : |(0.7 : ℝ)| = 0.7 := abs_of_pos (by norm_num)
    dsimp [g, dssSample]
    rw [abs_mul, abs_div, abs_of_pos hP, h07]
  calc (Finset.range dssNumSamples).sup' dssRange_nonempty (fun i => |dssSample i|)
      = (Finset.range dssNumSamples).sup' dssRange_nonempty (g ∘ fun i => |dssRaw i|) :=
        (Finset.sup'_congr dssRange_nonempty rfl habs).symm
    _ = 0.7 := by rw [← hcomp]; exact hleft

/-- C9: the default speaker synthesizer (a pure function, hence
deterministic) produces a 44100-sample buffer — 2.0 seconds at
22050 Hz — whose i-th sample is the four-harmonic sum of the 150 Hz
fundamental with weights 0.5/0.3/0.2/0.1, multiplied by the decay
envelope exp(-0.5 t), divided by the raw peak and scaled by 0.7; the
resulting peak magnitude is exactly 0.7. -/
theorem C9_default_speaker :
    dssSampleRate = 22050 ∧
    dssNumSamples = 2 * dssSampleRate ∧
    (∀ i : ℕ, dssSample i
        = (0.5 * Real.sin (2 * Real.pi * 150 * dssT i)
           + 0.3 * Real.sin (2 * Real.pi * 150 * 2 * dssT i)
           + 0.2 * Real.sin (2 * Real.pi * 150 * 3 * dssT i)
           + 0.1 * Real.sin (2 * Real.pi * 150 * 4 * dssT i))
          * Real.exp (-dssT i * 0.5) / dssPeak * 0.7) ∧
    0 < dssPeak ∧
    (Finset.range dssNumSamples).sup' dssRange_nonempty (fun i => |dssSample i|) = 0.7 := by
  refine ⟨rfl, by norm_num [dssNumSamples, dssSampleRate], fun i => rfl,
    dssPeak_pos, dss_out_peak⟩

end VoiceClone
